import Mathlib

/-
Verification of the DreamStream repository.

Shallow embedding of the data model (src/types), the game orchestrator
(src/App.tsx: handleStartGame, handleOptionSelect, resetGame), the
typewriter presenter (GameCanvas: TypewriterText) and the procedural
audio manager (src/utils/audio: AudioManager).  Asynchronous external
calls (text and image generation) are modelled by an outcome parameter
given to each operation; browser timers are modelled by explicit tick
functions; the Web Audio node graph is modelled as a list of node
records with explicit create/start/stop events.
-/

namespace DreamStream

/-- Mood tag enumeration from types.ts (field SceneData.ambience). -/
inductive Ambience where
  | nature
  | mechanical
  | eerie
  | calm
  | chaos
deriving DecidableEq, Repr

/-- ActionOption from types.ts. -/
structure ActionOption where
  label : String
  actionPrompt : String
deriving DecidableEq, Repr

/-- SceneData from types.ts.  imageUrl is optional in the interface. -/
structure SceneData where
  id : String
  narrative : String
  visualPrompt : String
  imageUrl : Option String
  options : List ActionOption
  ambience : Ambience
deriving DecidableEq, Repr

/-- GameState from types.ts. -/
structure GameState where
  isPlaying : Bool
  currentScene : Option SceneData
  history : List SceneData
  loading : Bool
  loadingMessage : String
  error : Option String
deriving DecidableEq, Repr

/-- The initial state passed to useState in App.tsx. -/
def initialGameState : GameState :=
  { isPlaying := false
  , currentScene := none
  , history := []
  , loading := false
  , loadingMessage := ""
  , error := none }

/-- The structured data returned by generateSceneLogic (services/gemini):
narrative, visualPrompt, options, ambience. -/
structure LogicData where
  narrative : String
  visualPrompt : String
  options : List ActionOption
  ambience : Ambience
deriving DecidableEq, Repr

/-- Outcome of the two sequential generation requests of one round.
generateSceneImage is only reached after generateSceneLogic succeeded,
so a failing image request carries the (discarded) logic data. -/
inductive GenOutcome where
  | ok (logic : LogicData) (image : String)
  | logicFail
  | imageFail (logic : LogicData)
deriving DecidableEq, Repr

/-- Record of the generateSceneLogic request actually issued:
its prompt argument and its history-summary argument. -/
structure RequestLog where
  logicPrompt : String
  logicContext : String
deriving DecidableEq, Repr

/-- Fixed error message of the Start failure path (App.tsx line 76). -/
def startErrorMsg : String := "Simulation failed. Connection interrupted. Try again."

/-- Fixed error message of the Advance failure path (App.tsx line 120). -/
def advanceErrorMsg : String := "Lost connection to the dream stream. Please retry."

/-- Fixed context given to generateSceneLogic by handleStartGame. -/
def startContext : String := "Start of a new adventure. The player has just entered."

/-- Construction of the new SceneData record shared by both handlers:
a fresh id, the spread of the logic data, and the image url. -/
def mkScene (newId : String) (logic : LogicData) (image : String) : SceneData :=
  { id := newId
  , narrative := logic.narrative
  , visualPrompt := logic.visualPrompt
  , imageUrl := some image
  , options := logic.options
  , ambience := logic.ambience }

/-- Result of handleStartGame: the new state plus the observable effects
(whether the audio engine was touched, which logic request was issued,
whether an image request was issued). -/
structure StartResult where
  state : GameState
  audioTouched : Bool
  logicRequested : Option RequestLog
  imageRequested : Bool
deriving DecidableEq, Repr

/-- The guard of handleStartGame: the JS test (not initialPrompt.trim())
holds exactly when every character of the prompt is whitespace (then and
only then does trimming leave the empty, falsy string). -/
def blankPrompt (s : String) : Bool :=
  s.data.all Char.isWhitespace

/-- handleStartGame from App.tsx.  The blank-input guard returns before
any effect; otherwise isPlaying/loading are set, the two requests run
sequentially, and on success history is replaced by the one-element
list holding the new scene. -/
def handleStartGame (initialPrompt : String) (newId : String)
    (outcome : GenOutcome) (st : GameState) : StartResult :=
  if blankPrompt initialPrompt then
    { state := st, audioTouched := false, logicRequested := none, imageRequested := false }
  else
    let st1 : GameState :=
      { st with
        isPlaying := true,
        loading := true,
        loadingMessage := "Initializing Neural Dream Engine...",
        error := none }
    let log : RequestLog := { logicPrompt := initialPrompt, logicContext := startContext }
    match outcome with
    | GenOutcome.logicFail =>
        { state := { st1 with
            loadingMessage := "Weaving the Narrative...",
            loading := false,
            error := some startErrorMsg },
          audioTouched := true, logicRequested := some log, imageRequested := false }
    | GenOutcome.imageFail _ =>
        { state := { st1 with
            loadingMessage := "Materializing World...",
            loading := false,
            error := some startErrorMsg },
          audioTouched := true, logicRequested := some log, imageRequested := true }
    | GenOutcome.ok logic image =>
        { state := { st1 with
            loadingMessage := "Materializing World...",
            currentScene := some (mkScene newId logic image),
            history := [mkScene newId logic image],
            loading := false },
          audioTouched := true, logicRequested := some log, imageRequested := true }

/-- The history summary built by handleOptionSelect (App.tsx line 93):
history.slice(-3).map(h narrative).join of the arrow separator.
JS slice(-3) takes the last three entries (or all, when fewer),
which is List.drop of length minus three under truncated subtraction. -/
def recentHistory (history : List SceneData) : String :=
  String.intercalate " -> " ((history.drop (history.length - 3)).map (fun h => h.narrative))

/-- Result of handleOptionSelect: the new state plus the issued requests. -/
structure AdvanceResult where
  state : GameState
  logicRequested : Option RequestLog
  imageRequested : Bool
deriving DecidableEq, Repr

/-- handleOptionSelect from App.tsx.  Returns immediately when
currentScene is null; otherwise issues the two sequential requests and
on success appends the new scene to history. -/
def handleOptionSelect (option : ActionOption) (newId : String)
    (outcome : GenOutcome) (st : GameState) : AdvanceResult :=
  match st.currentScene with
  | none => { state := st, logicRequested := none, imageRequested := false }
  | some _ =>
    let st1 : GameState :=
      { st with
        loading := true,
        loadingMessage := "Choosing path: " ++ option.label ++ "...",
        error := none }
    let log : RequestLog :=
      { logicPrompt := option.actionPrompt, logicContext := recentHistory st.history }
    match outcome with
    | GenOutcome.logicFail =>
        { state := { st1 with
            loadingMessage := "Unfolding Destiny...",
            loading := false,
            error := some advanceErrorMsg },
          logicRequested := some log, imageRequested := false }
    | GenOutcome.imageFail _ =>
        { state := { st1 with
            loadingMessage := "Rendering Reality...",
            loading := false,
            error := some advanceErrorMsg },
          logicRequested := some log, imageRequested := true }
    | GenOutcome.ok logic image =>
        { state := { st1 with
            loadingMessage := "Rendering Reality...",
            currentScene := some (mkScene newId logic image),
            history := st.history ++ [mkScene newId logic image],
            loading := false },
          logicRequested := some log, imageRequested := true }

/-- resetGame from App.tsx: sets the literal initial record (the audio
side effects do not touch the game state). -/
def resetGame (_st : GameState) : GameState :=
  { isPlaying := false
  , currentScene := none
  , history := []
  , loading := false
  , loadingMessage := ""
  , error := none }

/-- One successful-or-failed Advance invocation, packaged for sequences. -/
structure AdvanceCall where
  option : ActionOption
  newId : String
  logic : LogicData
  image : String
deriving DecidableEq, Repr

/-- The state transition of one successful Advance. -/
def advanceStep (st : GameState) (c : AdvanceCall) : GameState :=
  (handleOptionSelect c.option c.newId (GenOutcome.ok c.logic c.image) st).state

/-- A sequence of successful Advance calls, run left to right. -/
def runAdvances (steps : List AdvanceCall) (st : GameState) : GameState :=
  steps.foldl advanceStep st

lemma runAdvances_nil (st : GameState) : runAdvances [] st = st := rfl

lemma runAdvances_cons (c : AdvanceCall) (cs : List AdvanceCall) (st : GameState) :
    runAdvances (c :: cs) st = runAdvances cs (advanceStep st c) := rfl

lemma runAdvances_append (l₁ l₂ : List AdvanceCall) (st : GameState) :
    runAdvances (l₁ ++ l₂) st = runAdvances l₂ (runAdvances l₁ st) := by
  simp [runAdvances, List.foldl_append]

lemma advanceStep_history (st : GameState) (c : AdvanceCall)
    (h : st.currentScene.isSome) :
    (advanceStep st c).history = st.history ++ [mkScene c.newId c.logic c.image] ∧
    (advanceStep st c).currentScene = some (mkScene c.newId c.logic c.image) := by
  obtain ⟨s, hs⟩ := Option.isSome_iff_exists.mp h
  simp [advanceStep, handleOptionSelect, hs]

lemma runAdvances_history (steps : List AdvanceCall) :
    ∀ st : GameState, st.currentScene.isSome →
      ∃ tl : List SceneData,
        (runAdvances steps st).history = st.history ++ tl ∧
        tl.length = steps.length ∧
        (runAdvances steps st).currentScene.isSome := by
  induction steps with
  | nil =>
      intro st h
      exact ⟨[], by simp [runAdvances_nil], by simp, h⟩
  | cons c cs ih =>
      intro st h
      obtain ⟨h1, h2⟩ := advanceStep_history st c h
      obtain ⟨tl, htl, hlen, hsome⟩ :=
        ih (advanceStep st c) (by rw [h2]; rfl)
      refine ⟨mkScene c.newId c.logic c.image :: tl, ?_, by simp [hlen], ?_⟩
      · rw [runAdvances_cons, htl, h1]
        simp
      · rw [runAdvances_cons]
        exact hsome

/-- C1: after a successful Start, history is the one-element list holding
the new scene; after k further successful Advance calls (no Reset in
between) history has length exactly 1 + k; the history reached after any
shorter run of those Advances is a prefix of the final history
(append-only); and each single successful Advance appends exactly one
scene to the end of history. -/
theorem history_append_only (prompt newId : String) (logic : LogicData)
    (image : String) (st : GameState) (steps : List AdvanceCall)
    (hp : blankPrompt prompt = false) :
    (handleStartGame prompt newId (GenOutcome.ok logic image) st).state.history
        = [mkScene newId logic image] ∧
    (runAdvances steps
        (handleStartGame prompt newId (GenOutcome.ok logic image) st).state).history.length
        = 1 + steps.length ∧
    (∀ n : Nat, ∃ t : List SceneData,
      (runAdvances (steps.take n)
          (handleStartGame prompt newId (GenOutcome.ok logic image) st).state).history ++ t
        = (runAdvances steps
          (handleStartGame prompt newId (GenOutcome.ok logic image) st).state).history) ∧
    (∀ (s : GameState) (c : AdvanceCall), s.currentScene.isSome →
      (advanceStep s c).history = s.history ++ [mkScene c.newId c.logic c.image]) := by
  have hstate :
      (handleStartGame prompt newId (GenOutcome.ok logic image) st).state
        = { st with
            isPlaying := true,
            loadingMessage := "Materializing World...",
            currentScene := some (mkScene newId logic image),
            history := [mkScene newId logic image],
            loading := false,
            error := none } := by
    simp [handleStartGame, hp]
  refine ⟨by rw [hstate], ?_, ?_, fun s c h => (advanceStep_history s c h).1⟩
  · obtain ⟨tl, htl, hlen, _⟩ :=
      runAdvances_history steps
        (handleStartGame prompt newId (GenOutcome.ok logic image) st).state
        (by rw [hstate]; rfl)
    rw [htl, hstate]
    simp [hlen, Nat.add_comm]
  · intro n
    obtain ⟨tl₁, htl₁, _, hsome₁⟩ :=
      runAdvances_history (steps.take n)
        (handleStartGame prompt newId (GenOutcome.ok logic image) st).state
        (by rw [hstate]; rfl)
    obtain ⟨tl₂, htl₂, _, _⟩ :=
      runAdvances_history (steps.drop n)
        (runAdvances (steps.take n)
          (handleStartGame prompt newId (GenOutcome.ok logic image) st).state)
        hsome₁
    refine ⟨tl₂, ?_⟩
    conv_rhs => rw [← List.take_append_drop n steps]
    rw [runAdvances_append, htl₂]

/-- Witness for C1 at a concrete run: start prompt "go", two successful
Advance calls. -/
theorem history_append_only_witness :
    (runAdvances
        [ { option := { label := "a", actionPrompt := "pa" }, newId := "s2",
            logic := { narrative := "n2", visualPrompt := "v2", options := [],
                       ambience := Ambience.calm }, image := "i2" },
          { option := { label := "b", actionPrompt := "pb" }, newId := "s3",
            logic := { narrative := "n3", visualPrompt := "v3", options := [],
                       ambience := Ambience.chaos }, image := "i3" } ]
        (handleStartGame "go" "s1" (GenOutcome.ok
          { narrative := "n1", visualPrompt := "v1", options := [],
            ambience := Ambience.eerie } "i1") initialGameState).state).history.length
      = 1 + 2 :=
  (history_append_only "go" "s1"
    { narrative := "n1", visualPrompt := "v1", options := [], ambience := Ambience.eerie }
    "i1" initialGameState
    [ { option := { label := "a", actionPrompt := "pa" }, newId := "s2",
        logic := { narrative := "n2", visualPrompt := "v2", options := [],
                   ambience := Ambience.calm }, image := "i2" },
      { option := { label := "b", actionPrompt := "pb" }, newId := "s3",
        logic := { narrative := "n3", visualPrompt := "v3", options := [],
                   ambience := Ambience.chaos }, image := "i3" } ]
    (by decide)).2.1

/-- C2: when either generation request of an Advance round throws, the
resulting state keeps history and currentScene unchanged, clears the
loading flag, and sets the Advance-specific error message; in particular
a narrative whose image failed is never appended to history. -/
theorem advance_failure_discards_round (opt : ActionOption) (newId : String)
    (st : GameState) (outcome : GenOutcome)
    (hs : st.currentScene.isSome)
    (hf : outcome = GenOutcome.logicFail ∨ ∃ l, outcome = GenOutcome.imageFail l) :
    (handleOptionSelect opt newId outcome st).state.history = st.history ∧
    (handleOptionSelect opt newId outcome st).state.currentScene = st.currentScene ∧
    (handleOptionSelect opt newId outcome st).state.loading = false ∧
    (handleOptionSelect opt newId outcome st).state.error = some advanceErrorMsg := by
  obtain ⟨s, hsc⟩ := Option.isSome_iff_exists.mp hs
  rcases hf with hf | ⟨l, hf⟩ <;> subst hf <;> simp [handleOptionSelect, hsc]

/-- Witness for C2 at a concrete failing Advance (image request throws
after the narrative succeeded). -/
theorem advance_failure_discards_round_witness :
    (handleOptionSelect { label := "a", actionPrompt := "pa" } "s2"
        (GenOutcome.imageFail
          { narrative := "n2", visualPrompt := "v2", options := [],
            ambience := Ambience.calm })
        { isPlaying := true,
          currentScene := some { id := "s1", narrative := "n1", visualPrompt := "v1",
                                 imageUrl := some "i1", options := [],
                                 ambience := Ambience.eerie },
          history := [{ id := "s1", narrative := "n1", visualPrompt := "v1",
                        imageUrl := some "i1", options := [],
                        ambience := Ambience.eerie }],
          loading := false, loadingMessage := "", error := none }).state.history
      = [{ id := "s1", narrative := "n1", visualPrompt := "v1",
           imageUrl := some "i1", options := [], ambience := Ambience.eerie }] :=
  (advance_failure_discards_round { label := "a", actionPrompt := "pa" } "s2"
    { isPlaying := true,
      currentScene := some { id := "s1", narrative := "n1", visualPrompt := "v1",
                             imageUrl := some "i1", options := [],
                             ambience := Ambience.eerie },
      history := [{ id := "s1", narrative := "n1", visualPrompt := "v1",
                    imageUrl := some "i1", options := [],
                    ambience := Ambience.eerie }],
      loading := false, loadingMessage := "", error := none }
    (GenOutcome.imageFail
      { narrative := "n2", visualPrompt := "v2", options := [],
        ambience := Ambience.calm })
    (by decide)
    (Or.inr ⟨_, rfl⟩)).1

/-- C4: Reset yields, for every game state, exactly the initial idle
state: no scene, empty history, loading false, empty loading message,
no error, not playing. -/
theorem reset_yields_initial_state (st : GameState) :
    resetGame st = initialGameState ∧
    (resetGame st).currentScene = none ∧
    (resetGame st).history = [] ∧
    (resetGame st).loading = false ∧
    (resetGame st).loadingMessage = "" ∧
    (resetGame st).error = none ∧
    (resetGame st).isPlaying = false :=
  ⟨rfl, rfl, rfl, rfl, rfl, rfl, rfl⟩

/-- C7: whenever Advance actually runs (a scene is current), the context
string of the issued narrative request is the narrative texts of the
last min(3, length) history entries, in order, joined with the fixed
arrow separator; the remaining older entries contribute nothing. -/
theorem advance_context_last_three (opt : ActionOption) (newId : String)
    (outcome : GenOutcome) (st : GameState)
    (hs : st.currentScene.isSome) :
    (handleOptionSelect opt newId outcome st).logicRequested
        = some { logicPrompt := opt.actionPrompt,
                 logicContext := recentHistory st.history } ∧
    recentHistory st.history
        = String.intercalate " -> "
            ((st.history.drop (st.history.length - 3)).map (fun h => h.narrative)) ∧
    (st.history.drop (st.history.length - 3)).length = min 3 st.history.length ∧
    st.history.take (st.history.length - 3)
        ++ st.history.drop (st.history.length - 3) = st.history := by
  obtain ⟨s, hsc⟩ := Option.isSome_iff_exists.mp hs
  refine ⟨?_, rfl, ?_, List.take_append_drop _ _⟩
  · cases outcome <;> simp [handleOptionSelect, hsc]
  · rw [List.length_drop]
    omega

/-- Witness for C7 on a four-scene history: only the last three
narratives appear in the context string. -/
theorem advance_context_last_three_witness :
    (handleOptionSelect { label := "a", actionPrompt := "pa" } "s5"
        GenOutcome.logicFail
        { isPlaying := true,
          currentScene := some { id := "s4", narrative := "n4", visualPrompt := "v4",
                                 imageUrl := none, options := [],
                                 ambience := Ambience.calm },
          history :=
            [ { id := "s1", narrative := "n1", visualPrompt := "v1", imageUrl := none,
                options := [], ambience := Ambience.calm },
              { id := "s2", narrative := "n2", visualPrompt := "v2", imageUrl := none,
                options := [], ambience := Ambience.calm },
              { id := "s3", narrative := "n3", visualPrompt := "v3", imageUrl := none,
                options := [], ambience := Ambience.calm },
              { id := "s4", narrative := "n4", visualPrompt := "v4", imageUrl := none,
                options := [], ambience := Ambience.calm } ],
          loading := false, loadingMessage := "", error := none }).logicRequested
      = some { logicPrompt := "pa",
               logicContext := recentHistory
                 [ { id := "s1", narrative := "n1", visualPrompt := "v1", imageUrl := none,
                     options := [], ambience := Ambience.calm },
                   { id := "s2", narrative := "n2", visualPrompt := "v2", imageUrl := none,
                     options := [], ambience := Ambience.calm },
                   { id := "s3", narrative := "n3", visualPrompt := "v3", imageUrl := none,
                     options := [], ambience := Ambience.calm },
                   { id := "s4", narrative := "n4", visualPrompt := "v4", imageUrl := none,
                     options := [], ambience := Ambience.calm } ] } :=
  (advance_context_last_three { label := "a", actionPrompt := "pa" } "s5"
    GenOutcome.logicFail
    { isPlaying := true,
      currentScene := some { id := "s4", narrative := "n4", visualPrompt := "v4",
                             imageUrl := none, options := [],
                             ambience := Ambience.calm },
      history :=
        [ { id := "s1", narrative := "n1", visualPrompt := "v1", imageUrl := none,
            options := [], ambience := Ambience.calm },
          { id := "s2", narrative := "n2", visualPrompt := "v2", imageUrl := none,
            options := [], ambience := Ambience.calm },
          { id := "s3", narrative := "n3", visualPrompt := "v3", imageUrl := none,
            options := [], ambience := Ambience.calm },
          { id := "s4", narrative := "n4", visualPrompt := "v4", imageUrl := none,
            options := [], ambience := Ambience.calm } ],
      loading := false, loadingMessage := "", error := none }
    (by decide)).1

/-- C9: a Start whose input trims to the empty string is a complete
no-op: the state is returned unchanged and no audio call or generation
request happens. -/
theorem start_blank_input_noop (prompt newId : String) (outcome : GenOutcome)
    (st : GameState) (h : blankPrompt prompt = true) :
    handleStartGame prompt newId outcome st
      = { state := st, audioTouched := false,
          logicRequested := none, imageRequested := false } := by
  simp [handleStartGame, h]

/-- Witness for C9 on a whitespace-only prompt. -/
theorem start_blank_input_noop_witness :
    handleStartGame "   " "s1" GenOutcome.logicFail initialGameState
      = { state := initialGameState, audioTouched := false,
          logicRequested := none, imageRequested := false } :=
  start_blank_input_noop "   " "s1" GenOutcome.logicFail initialGameState (by decide)

/-- C10: when no scene is current, option selection is a complete no-op:
the state is returned unchanged and no request is issued, whatever the
option and whatever the would-be request outcomes. -/
theorem advance_without_scene_noop (opt : ActionOption) (newId : String)
    (outcome : GenOutcome) (st : GameState) (h : st.currentScene = none) :
    handleOptionSelect opt newId outcome st
      = { state := st, logicRequested := none, imageRequested := false } := by
  simp [handleOptionSelect, h]

/-- Witness for C10 at the initial state, which has no current scene. -/
theorem advance_without_scene_noop_witness :
    handleOptionSelect { label := "a", actionPrompt := "pa" } "s1"
        GenOutcome.logicFail initialGameState
      = { state := initialGameState, logicRequested := none, imageRequested := false } :=
  advance_without_scene_noop { label := "a", actionPrompt := "pa" } "s1"
    GenOutcome.logicFail initialGameState (by decide)

/-
Typewriter presenter (TypewriterText in GameCanvas).  The component
keeps a displayed prefix and a counter i; a 30ms interval extends the
prefix via text.slice(0, i + 1) while i is below the length, and on the
tick after the last character clears the interval and calls onComplete.
The effect restart on a new text clears the old interval and resets the
prefix to empty.  Text is modelled as a list of characters. -/

/-- Millisecond period of the reveal interval (literal 30 in the code). -/
def typewriterIntervalMs : Nat := 30

/-- Local state of one TypewriterText instance. -/
structure TypewriterState where
  text : List Char
  i : Nat
  displayed : List Char
  completions : Nat
  active : Bool
deriving DecidableEq, Repr

/-- State when the effect (re)starts for a text: empty prefix, counter
zero, interval scheduled, onComplete not yet called. -/
def typewriterStart (text : List Char) : TypewriterState :=
  { text := text, i := 0, displayed := [], completions := 0, active := true }

/-- One firing of the interval callback. -/
def typewriterTick (st : TypewriterState) : TypewriterState :=
  if st.active then
    if st.i < st.text.length then
      { st with displayed := st.text.take (st.i + 1), i := st.i + 1 }
    else
      { st with active := false, completions := st.completions + 1 }
  else st

/-- n firings of the interval callback. -/
def typewriterTicks (n : Nat) (st : TypewriterState) : TypewriterState :=
  match n with
  | 0 => st
  | n + 1 => typewriterTick (typewriterTicks n st)

/-- Restart with a new text: the effect cleanup clears the in-flight
interval and the effect body begins the new text from the empty prefix,
discarding the old state entirely. -/
def typewriterRestart (newText : List Char) (_old : TypewriterState) : TypewriterState :=
  typewriterStart newText

lemma typewriterTicks_start_eq (text : List Char) (n : Nat) :
    typewriterTicks n (typewriterStart text) =
      if n ≤ text.length then
        { text := text, i := n, displayed := text.take n,
          completions := 0, active := true }
      else
        { text := text, i := text.length, displayed := text,
          completions := 1, active := false } := by
  induction n with
  | zero => simp [typewriterTicks, typewriterStart]
  | succ n ih =>
      have hstep : typewriterTicks (n + 1) (typewriterStart text)
          = typewriterTick (typewriterTicks n (typewriterStart text)) := rfl
      rw [hstep, ih]
      by_cases h1 : n ≤ text.length
      · rw [if_pos h1]
        by_cases h2 : n < text.length
        · rw [if_pos (by omega : n + 1 ≤ text.length)]
          simp [typewriterTick, h2]
        · have he : n = text.length := by omega
          rw [if_neg (by omega : ¬ n + 1 ≤ text.length)]
          subst he
          simp [typewriterTick]
      · rw [if_neg h1, if_neg (by omega : ¬ n + 1 ≤ text.length)]
        simp [typewriterTick]

/-- C3: for a text of N characters revealed on the 30ms interval, the
displayed prefix after n ticks is exactly the first n characters (so it
grows by exactly one character per tick, never skipping or repeating);
after exactly N ticks the whole text is displayed and before that the
prefix is strictly shorter; onComplete has fired exactly once after any
number of ticks beyond N and never before; and restarting with a new
text mid-reveal discards the in-flight state and begins the new text
from the empty prefix. -/
theorem typewriter_reveal (text : List Char) :
    typewriterIntervalMs = 30 ∧
    (∀ n, n ≤ text.length →
      (typewriterTicks n (typewriterStart text)).displayed = text.take n) ∧
    (typewriterTicks text.length (typewriterStart text)).displayed = text ∧
    (∀ n, n < text.length →
      (typewriterTicks n (typewriterStart text)).displayed.length = n ∧
      ∃ c : Char, (typewriterTicks (n + 1) (typewriterStart text)).displayed
        = (typewriterTicks n (typewriterStart text)).displayed ++ [c]) ∧
    (∀ n, (typewriterTicks n (typewriterStart text)).completions
        = if text.length < n then 1 else 0) ∧
    (∀ (old : TypewriterState) (newText : List Char),
      typewriterRestart newText old = typewriterStart newText ∧
      (typewriterStart newText).displayed = []) := by
  refine ⟨rfl, ?_, ?_, ?_, ?_, fun old newText => ⟨rfl, rfl⟩⟩
  · intro n hn
    rw [typewriterTicks_start_eq, if_pos hn]
  · rw [typewriterTicks_start_eq, if_pos (le_refl _)]
    show text.take text.length = text
    simp
  · intro n hn
    constructor
    · rw [typewriterTicks_start_eq, if_pos (by omega : n ≤ text.length)]
      show (text.take n).length = n
      rw [List.length_take]
      omega
    · refine ⟨text.get ⟨n, hn⟩, ?_⟩
      rw [typewriterTicks_start_eq, if_pos (by omega : n + 1 ≤ text.length),
        typewriterTicks_start_eq, if_pos (by omega : n ≤ text.length)]
      show text.take (n + 1) = text.take n ++ [text.get ⟨n, hn⟩]
      rw [List.take_succ, List.getElem?_eq_getElem hn]
      rfl
  · intro n
    rw [typewriterTicks_start_eq]
    by_cases h : n ≤ text.length
    · rw [if_pos h, if_neg (by omega)]
    · rw [if_neg h, if_pos (by omega)]

/-- Witness for C3 on the two-character text made of the characters of
"hi": one tick reveals exactly the first character. -/
theorem typewriter_reveal_witness :
    (typewriterTicks 1 (typewriterStart (['h', 'i']))).displayed
      = (['h', 'i']).take 1 :=
  (typewriter_reveal (['h', 'i'])).2.1 1 (by decide)

/-
AudioManager (src/utils/audio).  The Web Audio graph is modelled as a
list of node records carrying creation order (id), kind, start time,
whether an immediate stop() was issued, and any scheduled stop(t).
The AudioContext and the two gain nodes built by init are modelled by
the ctxExists flag and the two tracked gain ids; currentTime is the
field now, which the (instantaneous) operations leave unchanged. -/

/-- Kinds of Web Audio nodes the ambience code creates. -/
inductive NodeKind where
  | oscillator
  | bufferSource
  | gainNode
  | biquadFilter
deriving DecidableEq, Repr

/-- One created audio node. -/
structure AudioNode where
  id : Nat
  kind : NodeKind
  startedAt : Option Nat
  stoppedExplicit : Bool
  autoStopAt : Option Nat
deriving DecidableEq, Repr

/-- The AudioManager instance fields plus the event model. -/
structure AudioState where
  now : Nat
  ctxExists : Bool
  suspended : Bool
  nextId : Nat
  nodes : List AudioNode
  masterGainId : Option Nat
  ambienceGainId : Option Nat
  ambienceNode : Option Nat
  lfo : Option Nat
  currentAmbienceType : Option Ambience
deriving DecidableEq, Repr

/-- new AudioManager(): every tracked reference is null. -/
def initialAudioState : AudioState :=
  { now := 0, ctxExists := false, suspended := false, nextId := 0, nodes := [],
    masterGainId := none, ambienceGainId := none,
    ambienceNode := none, lfo := none, currentAmbienceType := none }

/-- Creation of one node of the given kind (ids are allocated in
creation order). -/
def AudioState.create (st : AudioState) (kind : NodeKind) : AudioState :=
  { st with
    nextId := st.nextId + 1,
    nodes := { id := st.nextId, kind := kind, startedAt := none,
               stoppedExplicit := false, autoStopAt := none } :: st.nodes }

/-- node.start() on the node with the given id. -/
def startNode (i : Nat) (now : Nat) (nodes : List AudioNode) : List AudioNode :=
  nodes.map fun n => if n.id = i then { n with startedAt := some now } else n

/-- node.stop() with no argument on the node with the given id (the
try/catch in the source tolerates already-stopped nodes, so the model
simply records the flag). -/
def stopNode (i : Nat) (nodes : List AudioNode) : List AudioNode :=
  nodes.map fun n => if n.id = i then { n with stoppedExplicit := true } else n

/-- node.stop(t): a scheduled automatic stop. -/
def scheduleStop (i : Nat) (t : Nat) (nodes : List AudioNode) : List AudioNode :=
  nodes.map fun n => if n.id = i then { n with autoStopAt := some t } else n

/-- AudioManager.start of a node belonging to the current state. -/
def AudioState.start (st : AudioState) (i : Nat) : AudioState :=
  { st with nodes := startNode i st.now st.nodes }

/-- AudioManager.init(): builds the context, master gain and ambience
gain once, then resumes a suspended context. -/
def AudioState.init (st : AudioState) : AudioState :=
  let st1 :=
    if st.ctxExists then st
    else
      let mg := st.nextId
      let ag := st.nextId + 1
      let s := (st.create NodeKind.gainNode).create NodeKind.gainNode
      { s with ctxExists := true, masterGainId := some mg, ambienceGainId := some ag }
  if st1.suspended then { st1 with suspended := false } else st1

/-- AudioManager.resume(). -/
def AudioState.resume (st : AudioState) : AudioState :=
  if st.ctxExists && st.suspended then { st with suspended := false } else st

/-- AudioManager.stopAmbience(): stops the tracked ambience node and the
tracked lfo, clearing both references. -/
def AudioState.stopAmbience (st : AudioState) : AudioState :=
  let st1 :=
    match st.ambienceNode with
    | some i => { st with nodes := stopNode i st.nodes, ambienceNode := none }
    | none => st
  match st1.lfo with
  | some i => { st1 with nodes := stopNode i st1.nodes, lfo := none }
  | none => st1

/-- AudioManager.setAmbience(type): init and resume, the two guards, set
the current type, tear down the old graph, then build the mood-specific
graph in the source's creation and start order. -/
def AudioState.setAmbience (type : Ambience) (st0 : AudioState) : AudioState :=
  let st := st0.init.resume
  if st.ctxExists = false ∨ st.ambienceGainId = none then st
  else if st.currentAmbienceType = some type then st
  else
    let st := { st with currentAmbienceType := some type }
    let st := st.stopAmbience
    match type with
    | Ambience.mechanical =>
        let osc := st.nextId
        let lfoId := st.nextId + 1
        let st := (((st.create NodeKind.oscillator).create NodeKind.oscillator).create
          NodeKind.gainNode).create NodeKind.biquadFilter
        let st := (st.start osc).start lfoId
        { st with ambienceNode := some osc, lfo := some lfoId }
    | Ambience.eerie =>
        let o1 := st.nextId
        let o2 := st.nextId + 1
        let st := ((st.create NodeKind.oscillator).create NodeKind.oscillator).create
          NodeKind.gainNode
        let st := (st.start o1).start o2
        let st := { st with ambienceNode := some o1 }
        { st with nodes := scheduleStop o2 (st.now + 600) st.nodes }
    | Ambience.nature =>
        let src := st.nextId
        let lfoId := st.nextId + 2
        let st := (((st.create NodeKind.bufferSource).create NodeKind.biquadFilter).create
          NodeKind.oscillator).create NodeKind.gainNode
        let st := st.start lfoId
        let st := { st with lfo := some lfoId }
        let st := st.start src
        { st with ambienceNode := some src }
    | Ambience.chaos =>
        let src := st.nextId
        let st := (st.create NodeKind.bufferSource).create NodeKind.biquadFilter
        let st := st.start src
        { st with ambienceNode := some src }
    | Ambience.calm =>
        let src := st.nextId
        let st := (st.create NodeKind.bufferSource).create NodeKind.biquadFilter
        let st := st.start src
        { st with ambienceNode := some src }

/-- A node that is currently producing sound: a started, unstopped
oscillator or buffer source whose scheduled stop, if any, has not yet
been reached. -/
def AudioNode.isLiveSource (now : Nat) (n : AudioNode) : Bool :=
  (n.kind == NodeKind.oscillator || n.kind == NodeKind.bufferSource) &&
  n.startedAt.isSome && !n.stoppedExplicit &&
  (match n.autoStopAt with
   | none => true
   | some t => decide (now < t))

/-- Ids of the currently sounding source nodes. -/
def AudioState.liveSources (st : AudioState) : List Nat :=
  (st.nodes.filter (fun n => n.isLiveSource st.now)).map (fun n => n.id)

lemma init_of_ctxExists (st : AudioState) (hc : st.ctxExists = true) :
    st.init = { st with suspended := false } := by
  obtain ⟨now, ce, sus, nid, nds, mg, ag, amb, lf, cur⟩ := st
  simp only at hc
  subst hc
  unfold AudioState.init
  simp only [if_true]
  cases sus <;> rfl

lemma resume_of_not_suspended (st : AudioState) (hs : st.suspended = false) :
    st.resume = st := by
  unfold AudioState.resume
  rw [hs]
  simp

lemma startNode_of_not_mem (i now : Nat) (l : List AudioNode)
    (h : ∀ n ∈ l, n.id ≠ i) : startNode i now l = l := by
  induction l with
  | nil => rfl
  | cons a t ih =>
      have ha : a.id ≠ i := h a (List.mem_cons_self a t)
      have ht := ih (fun n hn => h n (List.mem_cons_of_mem a hn))
      unfold startNode at ht ⊢
      simp only [List.map_cons, if_neg ha, ht]

lemma startNode_cons (i now : Nat) (a : AudioNode) (l : List AudioNode) :
    startNode i now (a :: l)
      = (if a.id = i then { a with startedAt := some now } else a) :: startNode i now l :=
  rfl

lemma stopNode_cons (i : Nat) (a : AudioNode) (l : List AudioNode) :
    stopNode i (a :: l)
      = (if a.id = i then { a with stoppedExplicit := true } else a) :: stopNode i l :=
  rfl

lemma stopNode_of_not_mem (i : Nat) (l : List AudioNode)
    (h : ∀ n ∈ l, n.id ≠ i) : stopNode i l = l := by
  induction l with
  | nil => rfl
  | cons a t ih =>
      have ha : a.id ≠ i := h a (List.mem_cons_self a t)
      have ht := ih (fun n hn => h n (List.mem_cons_of_mem a hn))
      unfold stopNode at ht ⊢
      simp only [List.map_cons, if_neg ha, ht]

/-- C5: setAmbience with the mood that is already playing changes
nothing in the ambience graph: the node list is untouched (so no node
is stopped and no oscillator, noise source, filter or gain node is
created, no id is allocated) and the tracked ambience references
(currentAmbienceType, ambienceNode, lfo) keep their values. -/
theorem setAmbience_same_mood_noop (m : Ambience) (st : AudioState)
    (hc : st.ctxExists = true) (hm : st.currentAmbienceType = some m) :
    (AudioState.setAmbience m st).nodes = st.nodes ∧
    (AudioState.setAmbience m st).nextId = st.nextId ∧
    (AudioState.setAmbience m st).ambienceNode = st.ambienceNode ∧
    (AudioState.setAmbience m st).lfo = st.lfo ∧
    (AudioState.setAmbience m st).currentAmbienceType = st.currentAmbienceType := by
  have key : AudioState.setAmbience m st = { st with suspended := false } := by
    unfold AudioState.setAmbience
    rw [init_of_ctxExists st hc, resume_of_not_suspended _ rfl]
    simp [hc, hm]
  rw [key]
  exact ⟨rfl, rfl, rfl, rfl, rfl⟩

/-- An audio state with the calm ambience playing, reached from a fresh
manager by init and one setAmbience call. -/
def calmPlayingState : AudioState :=
  AudioState.setAmbience Ambience.calm initialAudioState.init

/-- Witness for C5: repeating setAmbience calm on a state already
playing calm leaves the node list untouched. -/
theorem setAmbience_same_mood_noop_witness :
    (AudioState.setAmbience Ambience.calm calmPlayingState).nodes
      = calmPlayingState.nodes :=
  (setAmbience_same_mood_noop Ambience.calm calmPlayingState
    (by decide) (by decide)).1

/-- C8: building the eerie ambience tracks only the first of the two
detuned oscillators (ambienceNode is the first oscillator's id and no
lfo is tracked), while the second oscillator is started and merely
scheduled to auto-stop 600 seconds later; the teardown path then marks
the first oscillator stopped but leaves the second one untouched, still
relying only on its 600-second failsafe. -/
theorem eerie_teardown_leaks_second_oscillator (st : AudioState)
    (hc : st.ctxExists = true) (hg : ¬ st.ambienceGainId = none)
    (hcur : ¬ st.currentAmbienceType = some Ambience.eerie) :
    (AudioState.setAmbience Ambience.eerie st).ambienceNode = some st.nextId ∧
    (AudioState.setAmbience Ambience.eerie st).lfo = none ∧
    (AudioState.setAmbience Ambience.eerie st).nodes.find?
        (fun n => n.id == st.nextId + 1)
      = some { id := st.nextId + 1, kind := NodeKind.oscillator,
               startedAt := some st.now, stoppedExplicit := false,
               autoStopAt := some (st.now + 600) } ∧
    (AudioState.setAmbience Ambience.eerie st).stopAmbience.nodes.find?
        (fun n => n.id == st.nextId)
      = some { id := st.nextId, kind := NodeKind.oscillator,
               startedAt := some st.now, stoppedExplicit := true,
               autoStopAt := none } ∧
    (AudioState.setAmbience Ambience.eerie st).stopAmbience.nodes.find?
        (fun n => n.id == st.nextId + 1)
      = some { id := st.nextId + 1, kind := NodeKind.oscillator,
               startedAt := some st.now, stoppedExplicit := false,
               autoStopAt := some (st.now + 600) } := by
  obtain ⟨now, ce, sus, nid, nds, mg, ag, amb, lf, cur⟩ := st
  simp only at hc hg hcur ⊢
  subst hc
  have b00 : (nid == nid) = true := by simp
  have b10 : (nid + 1 == nid) = false := by simp
  have b20 : (nid + 2 == nid) = false := by simp
  have b01 : (nid == nid + 1) = false := by simp
  have b11 : (nid + 1 == nid + 1) = true := by simp
  have b21 : (nid + 2 == nid + 1) = false := by simp
  have h01 : ¬ (nid = nid + 1) := by omega
  have h10 : ¬ (nid + 1 = nid) := by omega
  have h20 : ¬ (nid + 2 = nid) := by omega
  have h21 : ¬ (nid + 2 = nid + 1) := by omega
  refine ⟨?_, ?_, ?_, ?_, ?_⟩ <;>
    cases sus <;> cases amb <;> cases lf <;>
      simp [AudioState.setAmbience, AudioState.init, AudioState.resume,
        AudioState.stopAmbience, AudioState.create, AudioState.start,
        startNode, stopNode, scheduleStop, List.find?,
        hg, hcur, b00, b10, b20, b01, b11, b21, h01, h10, h20, h21]

/-- Witness for C8 on a freshly initialized manager. -/
theorem eerie_teardown_leaks_second_oscillator_witness :
    (AudioState.setAmbience Ambience.eerie initialAudioState.init).ambienceNode
      = some initialAudioState.init.nextId :=
  (eerie_teardown_leaks_second_oscillator initialAudioState.init
    (by decide) (by decide) (by decide)).1

/-- C6: from an initialized, idle audio state (context built, nothing
playing, no live source node), setAmbience calm followed by setAmbience
chaos yields exactly one live source node after each call; at the end
the only live source is the chaos source, the tracked calm source has
been stopped (its record carries the stop flag), so at most one ambience
graph is ever active. -/
theorem ambience_calm_then_chaos_single_graph (st : AudioState)
    (hc : st.ctxExists = true) (hg : ¬ st.ambienceGainId = none)
    (hcur : st.currentAmbienceType = none)
    (hamb : st.ambienceNode = none) (hlfo : st.lfo = none)
    (hfresh : ∀ n ∈ st.nodes, n.id < st.nextId)
    (hlive : st.liveSources = []) :
    (AudioState.setAmbience Ambience.calm st).liveSources = [st.nextId] ∧
    (AudioState.setAmbience Ambience.calm st).ambienceNode = some st.nextId ∧
    (AudioState.setAmbience Ambience.chaos
        (AudioState.setAmbience Ambience.calm st)).liveSources
      = [st.nextId + 2] ∧
    (AudioState.setAmbience Ambience.chaos
        (AudioState.setAmbience Ambience.calm st)).nodes.find?
        (fun n => n.id == st.nextId)
      = some { id := st.nextId, kind := NodeKind.bufferSource,
               startedAt := some st.now, stoppedExplicit := true,
               autoStopAt := none } := by
  obtain ⟨now, ce, sus, nid, nds, mg, ag, amb, lf, cur⟩ := st
  simp only at hc hg hcur hamb hlfo hfresh hlive ⊢
  subst hc
  subst hcur
  subst hamb
  subst hlfo
  have b00 : (nid == nid) = true := by simp
  have b10 : (nid + 1 == nid) = false := by simp
  have b20 : (nid + 2 == nid) = false := by simp
  have b30 : (nid + 3 == nid) = false := by simp
  have h10 : ¬ (nid + 1 = nid) := by omega
  have h20 : ¬ (nid + 2 = nid) := by omega
  have h02 : ¬ (nid = nid + 2) := by omega
  have h12 : ¬ (nid + 1 = nid + 2) := by omega
  have h32 : ¬ (nid + 3 = nid + 2) := by omega
  have hstart0 : startNode nid now nds = nds :=
    startNode_of_not_mem _ _ _ (fun n hn => by have := hfresh n hn; omega)
  have hstart2 : startNode (nid + 2) now nds = nds :=
    startNode_of_not_mem _ _ _ (fun n hn => by have := hfresh n hn; omega)
  have hstop0 : stopNode nid nds = nds :=
    stopNode_of_not_mem _ _ (fun n hn => by have := hfresh n hn; omega)
  have hfilterNil : nds.filter (fun n => AudioNode.isLiveSource now n) = [] := by
    simp only [AudioState.liveSources] at hlive
    exact List.map_eq_nil_iff.mp hlive
  have kSrcLive : AudioNode.isLiveSource now
      { id := nid, kind := NodeKind.bufferSource, startedAt := some now,
        stoppedExplicit := false, autoStopAt := none } = true := rfl
  have kSrcStopped : AudioNode.isLiveSource now
      { id := nid, kind := NodeKind.bufferSource, startedAt := some now,
        stoppedExplicit := true, autoStopAt := none } = false := rfl
  have kFlt1 : AudioNode.isLiveSource now
      { id := nid + 1, kind := NodeKind.biquadFilter, startedAt := none,
        stoppedExplicit := false, autoStopAt := none } = false := rfl
  have kSrc2Live : AudioNode.isLiveSource now
      { id := nid + 2, kind := NodeKind.bufferSource, startedAt := some now,
        stoppedExplicit := false, autoStopAt := none } = true := rfl
  have kFlt3 : AudioNode.isLiveSource now
      { id := nid + 3, kind := NodeKind.biquadFilter, startedAt := none,
        stoppedExplicit := false, autoStopAt := none } = false := rfl
  refine ⟨?_, ?_, ?_, ?_⟩ <;>
    cases sus <;>
      simp [AudioState.setAmbience, AudioState.init, AudioState.resume,
        AudioState.stopAmbience, AudioState.create, AudioState.start,
        AudioState.liveSources,
        startNode_cons, stopNode_cons, List.find?, List.filter,
        hg, b00, b10, b20, b30, h10, h20, h02, h12, h32,
        hstart0, hstart2, hstop0, hfilterNil,
        kSrcLive, kSrcStopped, kFlt1, kSrc2Live, kFlt3]

/-- Witness for C6 on a freshly initialized manager. -/
theorem ambience_calm_then_chaos_single_graph_witness :
    (AudioState.setAmbience Ambience.calm initialAudioState.init).liveSources
      = [initialAudioState.init.nextId] :=
  (ambience_calm_then_chaos_single_graph initialAudioState.init
    (by decide) (by decide) (by decide) (by decide) (by decide)
    (by decide) (by decide)).1

end DreamStream
